import Mathlib

/-!
Verification of `valorant_stats.py` (ZarakL/valtracker).

The script is a single linear pipeline inside `main()`:
credential check → Riot-ID parse → account lookup → active-shard lookup →
region→host mapping → match list (capped at 5) → per-match detail fetch and
aggregation → KDA / win-rate report.

The embedding below models strings the script manipulates as Lean `String`s
(the user-typed Riot ID as `List Char`, so that Python's `str.split('#')` and
`str.strip()` can be reasoned about character by character), JSON objects as
structures whose fields are `Option`-valued exactly where the script uses
`dict.get` (a `none` field models an absent key; fields read with `d[k]`
indexing keep `Option` so that a missing key can raise), and every HTTP call
as an oracle-provided `Except String` response (`.error` = transport failure
or non-2xx status raised by `raise_for_status`).
-/

set_option autoImplicit false

namespace ValTracker

/-- Python `str.split(sep)` for a one-character separator, on `List Char`:
splits at every occurrence of `sep`; the result always has
(number of occurrences of `sep`) + 1 pieces, and `"".split(sep) == [""]`. -/
def pySplit (sep : Char) : List Char → List (List Char)
  | [] => [[]]
  | c :: rest =>
    match pySplit sep rest with
    | [] => [[]]
    | h :: t => if c = sep then [] :: h :: t else (c :: h) :: t

/-- Python `str.strip()`: remove leading and trailing whitespace. -/
def pyStrip (s : List Char) : List Char :=
  ((s.dropWhile Char.isWhitespace).reverse.dropWhile Char.isWhitespace).reverse

/-- Line 18: `game_name, tag_line = riot_id.split('#')`.  The unpacking
succeeds exactly when the split yields two pieces; otherwise the script
catches `ValueError` and reports a format error. -/
def parseRiotId (s : List Char) : Option (List Char × List Char) :=
  match pySplit '#' s with
  | [a, b] => some (a, b)
  | _ => none

/-- Lines 68–75: the static `region_map` with its six known shard codes. -/
def region_map : List (String × String) :=
  [("na", "americas.api.riotgames.com"),
   ("latam", "americas.api.riotgames.com"),
   ("br", "americas.api.riotgames.com"),
   ("eu", "eu.api.riotgames.com"),
   ("ap", "asia.api.riotgames.com"),
   ("kr", "kr.api.riotgames.com")]

/-- Line 77: `val_domain = region_map.get(actual_region, "americas.api.riotgames.com")`. -/
def val_domain (r : String) : String :=
  (region_map.lookup r).getD "americas.api.riotgames.com"

/-- Lines 78–79: the guard of the "Unknown activeShard" warning print:
`val_domain != "americas.api.riotgames.com" and actual_region not in region_map`. -/
def warnUnknown (r : String) : Bool :=
  (val_domain r != "americas.api.riotgames.com") && !(region_map.lookup r).isSome

/-- The JSON body of the account-lookup response; only the `"puuid"` field is
read (line 41, with `[]` indexing, so an absent key raises `KeyError`). -/
structure AccountData where
  puuid : Option String := none
deriving DecidableEq

/-- The JSON body of the active-shard response; only `"activeShard"` is read
(line 59, `[]` indexing). -/
structure ShardData where
  activeShard : Option String := none
deriving DecidableEq

/-- One entry of the match-history list: only `match_item["matchId"]` is read
(line 104, `[]` indexing outside any `try`). -/
structure MatchItem where
  matchId : Option String := none
deriving DecidableEq

/-- The JSON body of the match-list response; line 89 reads
`data.get("history", [])`. -/
structure MatchListData where
  history : Option (List MatchItem) := none
deriving DecidableEq

/-- The `"stats"` object of a participant; lines 129–131 read kills, deaths
and assists with `stats.get(_, 0)`. -/
structure PlayerStats where
  kills : Option Nat := none
  deaths : Option Nat := none
  assists : Option Nat := none
deriving DecidableEq

/-- One entry of `match_data["players"]`.  `p["puuid"]` (line 123) uses `[]`
indexing — an absent key raises `KeyError` — while `"stats"` and `"teamId"`
are read with `.get` (lines 128, 138). -/
structure Player where
  puuid : Option String := none
  stats : Option PlayerStats := none
  teamId : Option String := none
deriving DecidableEq

/-- One entry of `match_data.get("teams", {})`; line 145 reads `.get("won")`
and tests its truthiness (`None` counts as false). -/
structure Team where
  won : Option Bool := none
deriving DecidableEq

/-- The JSON body of a match-detail response; lines 116 and 139 read
`.get("players", [])` and `.get("teams", {})`. -/
structure MatchData where
  players : Option (List Player) := none
  teams : Option (List (String × Team)) := none
deriving DecidableEq

/-- The running totals of lines 101 and 133–146. -/
structure Totals where
  kills : Nat := 0
  deaths : Nat := 0
  assists : Nat := 0
  wins : Nat := 0
deriving DecidableEq

/-- Line 123: `next((p for p in players_list if p["puuid"] == puuid), None)`.
The generator is evaluated lazily, entry by entry, until the first match;
an entry reached without a `"puuid"` key raises `KeyError` (`.error ()`),
uncaught at this point of the script. -/
def findPlayer (puuid : String) : List Player → Except Unit (Option Player)
  | [] => .ok none
  | p :: rest =>
    match p.puuid with
    | none => .error ()
    | some q => if q = puuid then .ok (some p) else findPlayer puuid rest

/-- Lines 107–146: the body of the per-match loop once the detail response is
in hand.  A failed fetch (`.error`) is caught at lines 111–113 and the match
skipped; afterwards the participant search can raise (propagated as
`.error ()`), otherwise the totals are updated. -/
def processMatch (puuid : String) (resp : Except String MatchData) (t : Totals) :
    Except Unit Totals :=
  match resp with
  | .error _ => .ok t
  | .ok md =>
    let plist := md.players.getD []
    if plist = [] then .ok t
    else
      match findPlayer puuid plist with
      | .error _ => .error ()
      | .ok none => .ok t
      | .ok (some p) =>
        let stats := p.stats.getD {}
        let t' : Totals :=
          { t with
            kills := t.kills + stats.kills.getD 0
            deaths := t.deaths + stats.deaths.getD 0
            assists := t.assists + stats.assists.getD 0 }
        let teams := (md.teams.getD [])
        let winFlag : Bool :=
          match p.teamId with
          | none => false
          | some tid =>
            if tid = "" then false
            else
              match teams.lookup tid with
              | none => false
              | some team => team.won.getD false
        if winFlag then .ok { t' with wins := t'.wins + 1 } else .ok t'

/-- Lines 103–146: the whole loop.  `detail` is the oracle for the
match-detail endpoint; the second component counts detail fetches performed.
Reading `match_item["matchId"]` (line 104) happens before the fetch and is
outside the `try`, so an absent key aborts the run with no further calls. -/
def runAgg (detail : String → Except String MatchData) (puuid : String) :
    List MatchItem → Totals → Nat → Except Unit Totals × Nat
  | [], t, n => (.ok t, n)
  | item :: rest, t, n =>
    match item.matchId with
    | none => (.error (), n)
    | some mid =>
      match processMatch puuid (detail mid) t with
      | .error e => (.error e, n + 1)
      | .ok t' => runAgg detail puuid rest t' (n + 1)

/-- Lines 151–152: `deaths_safe = max(1, total_deaths)`;
`kda = (total_kills + total_assists) / deaths_safe` (true division, modelled
over `ℚ`). -/
def kda (t : Totals) : ℚ :=
  ((t.kills : ℚ) + (t.assists : ℚ)) / ((max 1 t.deaths : ℕ) : ℚ)

/-- Lines 153–154: `win_rate = (total_wins / games_count) * 100 if games_count else 0`. -/
def winRate (wins games : Nat) : ℚ :=
  if games ≠ 0 then ((wins : ℚ) / (games : ℚ)) * 100 else 0

/-- How one run of `main()` ends.  `report` carries the final totals and
`games_count`; the two printed numbers are exactly `kda t` and
`winRate t.wins gamesCount` (lines 151–154 compute them from nothing else). -/
inductive Outcome where
  | missingKey
  | badFormat
  | accountError
  | shardError
  | matchListError
  | noMatches
  | aborted
  | report (t : Totals) (gamesCount : Nat)
deriving DecidableEq

/-- Observable result of a run: the outcome, how many HTTP calls of each kind
were made, the host chosen for the match endpoints (once resolved), and
whether the "Unknown activeShard" warning was printed. -/
structure RunResult where
  outcome : Outcome
  accountCalls : Nat
  shardCalls : Nat
  matchListCalls : Nat
  matchDetailCalls : Nat
  domain : Option String
  warned : Bool
deriving DecidableEq

/-- The environment a run executes in: the credential, the typed Riot ID and
an oracle response for every endpoint. -/
structure Env where
  api_key : Option String
  riot_id : List Char
  account_resp : Except String AccountData
  shard_resp : Except String ShardData
  matchlist_resp : Except String MatchListData
  detail : String → Except String MatchData

/-- Lines 84–161: the tail of the pipeline after the host is resolved —
match-list fetch, cap at five, aggregation loop and report. -/
def runFrom (env : Env) (puuid : String) (dom : String) (w : Bool) : RunResult :=
  match env.matchlist_resp with
  | .error _ => ⟨.matchListError, 1, 1, 1, 0, some dom, w⟩
  | .ok ml =>
    if (ml.history.getD []).take 5 = [] then ⟨.noMatches, 1, 1, 1, 0, some dom, w⟩
    else
      match runAgg env.detail puuid ((ml.history.getD []).take 5) {} 0 with
      | (.error _, n) => ⟨.aborted, 1, 1, 1, n, some dom, w⟩
      | (.ok t, n) =>
        ⟨.report t ((ml.history.getD []).take 5).length, 1, 1, 1, n, some dom, w⟩

/-- Lines 51–79: shard lookup and region→host mapping.  A transport error or
a missing `"activeShard"` key is caught by the same handler (lines 61–63). -/
def stageShard (env : Env) (puuid : String) : RunResult :=
  match env.shard_resp with
  | .error _ => ⟨.shardError, 1, 1, 0, 0, none, false⟩
  | .ok sd =>
    match sd.activeShard with
    | none => ⟨.shardError, 1, 1, 0, 0, none, false⟩
    | some region => runFrom env puuid (val_domain region) (warnUnknown region)

/-- Lines 33–45: account lookup.  A transport error and a missing `"puuid"`
key are caught by the same handler (lines 43–45). -/
def stageAccount (env : Env) : RunResult :=
  match env.account_resp with
  | .error _ => ⟨.accountError, 1, 0, 0, 0, none, false⟩
  | .ok acct =>
    match acct.puuid with
    | none => ⟨.accountError, 1, 0, 0, 0, none, false⟩
    | some puuid => stageShard env puuid

/-- Lines 5–161: `main()`.  The credential check (`if not api_key`: absent or
empty both fail), the Riot-ID parse, then the HTTP pipeline. -/
def run (env : Env) : RunResult :=
  match env.api_key with
  | none => ⟨.missingKey, 0, 0, 0, 0, none, false⟩
  | some key =>
    if key = "" then ⟨.missingKey, 0, 0, 0, 0, none, false⟩
    else
      match parseRiotId (pyStrip env.riot_id) with
      | none => ⟨.badFormat, 0, 0, 0, 0, none, false⟩
      | some _ => stageAccount env

/-- The capped match list of a run (`data.get("history", [])[:5]`), as a
function of the environment, for stating denominator facts. -/
def cappedMatches (env : Env) : List MatchItem :=
  match env.matchlist_resp with
  | .error _ => []
  | .ok ml => (ml.history.getD []).take 5

end ValTracker

namespace ValTracker

/-! ### Helper lemmas -/

theorem pySplit_ne_nil (sep : Char) (l : List Char) : pySplit sep l ≠ [] := by
  induction l with
  | nil => simp [pySplit]
  | cons c rest ih =>
    unfold pySplit
    cases h : pySplit sep rest with
    | nil => simp
    | cons hd tl => by_cases hc : c = sep <;> simp [hc]

theorem pySplit_length (sep : Char) (l : List Char) :
    (pySplit sep l).length = l.count sep + 1 := by
  induction l with
  | nil => simp [pySplit]
  | cons c rest ih =>
    unfold pySplit
    cases h : pySplit sep rest with
    | nil => exact absurd h (pySplit_ne_nil sep rest)
    | cons hd tl =>
      rw [h] at ih
      by_cases hc : c = sep
      · subst hc
        simp only [if_pos rfl, List.length_cons, List.count_cons, beq_self_eq_true,
          if_true] at *
        omega
      · have hcs : ¬(sep = c) := fun he => hc he.symm
        simp only [if_neg hc, List.length_cons, List.count_cons, beq_iff_eq,
          if_neg hcs] at *
        omega

theorem count_hash_dropWhile (l : List Char) :
    (l.dropWhile Char.isWhitespace).count '#' = l.count '#' := by
  conv_rhs => rw [← List.takeWhile_append_dropWhile Char.isWhitespace l]
  rw [List.count_append]
  have h0 : (l.takeWhile Char.isWhitespace).count '#' = 0 := by
    rw [List.count_eq_zero]
    intro hmem
    exact absurd (List.mem_takeWhile_imp hmem) (by decide)
  omega

theorem count_hash_pyStrip (l : List Char) : (pyStrip l).count '#' = l.count '#' := by
  unfold pyStrip
  rw [List.count_reverse, count_hash_dropWhile, List.count_reverse, count_hash_dropWhile]

theorem parseRiotId_eq_none (s : List Char) (h : (pySplit '#' s).length ≠ 2) :
    parseRiotId s = none := by
  unfold parseRiotId
  cases hs : pySplit '#' s with
  | nil => rfl
  | cons a t =>
    cases t with
    | nil => rfl
    | cons b t2 =>
      cases t2 with
      | nil => rw [hs] at h; simp at h
      | cons x t3 => rfl

theorem parseRiotId_eq_none_of_count (s : List Char) (h : s.count '#' ≠ 1) :
    parseRiotId s = none := by
  apply parseRiotId_eq_none
  rw [pySplit_length]
  omega

end ValTracker

namespace ValTracker

theorem findPlayer_eq_none (puuid : String) (plist : List Player)
    (h : ∀ p ∈ plist, p.puuid.isSome ∧ p.puuid ≠ some puuid) :
    findPlayer puuid plist = .ok none := by
  induction plist with
  | nil => rfl
  | cons p rest ih =>
    obtain ⟨hs, hne⟩ := h p (List.mem_cons_self p rest)
    cases hq : p.puuid with
    | none => rw [hq] at hs; simp at hs
    | some q =>
      have hqne : q ≠ puuid := fun he => hne (by rw [hq, he])
      simp only [findPlayer, hq, if_neg hqne]
      exact ih (fun x hx => h x (List.mem_cons_of_mem p hx))

theorem findPlayer_first (puuid : String) (pre : List Player) (p : Player)
    (post : List Player)
    (hpre : ∀ q ∈ pre, q.puuid.isSome ∧ q.puuid ≠ some puuid)
    (hp : p.puuid = some puuid) :
    findPlayer puuid (pre ++ p :: post) = .ok (some p) := by
  induction pre with
  | nil => simp [findPlayer, hp]
  | cons q pre ih =>
    obtain ⟨hs, hne⟩ := hpre q (List.mem_cons_self q pre)
    cases hq : q.puuid with
    | none => rw [hq] at hs; simp at hs
    | some s =>
      have hsne : s ≠ puuid := fun he => hne (by rw [hq, he])
      rw [List.cons_append]
      simp only [findPlayer, hq, if_neg hsne]
      exact ih (fun x hx => hpre x (List.mem_cons_of_mem q hx))

theorem findPlayer_eq_error (puuid : String) (pre : List Player) (q : Player)
    (post : List Player)
    (hpre : ∀ x ∈ pre, x.puuid.isSome ∧ x.puuid ≠ some puuid)
    (hq : q.puuid = none) :
    findPlayer puuid (pre ++ q :: post) = .error () := by
  induction pre with
  | nil => simp only [List.nil_append, findPlayer, hq]
  | cons x pre ih =>
    obtain ⟨hs, hne⟩ := hpre x (List.mem_cons_self x pre)
    cases hx : x.puuid with
    | none => rw [hx] at hs; simp at hs
    | some s =>
      have hsne : s ≠ puuid := fun he => hne (by rw [hx, he])
      rw [List.cons_append]
      simp only [findPlayer, hx, if_neg hsne]
      exact ih (fun y hy => hpre y (List.mem_cons_of_mem x hy))

theorem run_eq_stageAccount (env : Env) (key : String) (pr : List Char × List Char)
    (hkey : env.api_key = some key) (hne : key ≠ "")
    (hparse : parseRiotId (pyStrip env.riot_id) = some pr) :
    run env = stageAccount env := by
  simp [run, hkey, hne, hparse]

theorem run_report_inversion (env : Env) (t : Totals) (g : Nat)
    (h : (run env).outcome = .report t g) :
    ∃ ml, env.matchlist_resp = .ok ml ∧
      (ml.history.getD []).take 5 ≠ [] ∧
      g = ((ml.history.getD []).take 5).length ∧
      ∃ puuid n,
        runAgg env.detail puuid ((ml.history.getD []).take 5) {} 0 = (.ok t, n) := by
  unfold run at h
  split at h
  · simp at h
  · split at h
    · simp at h
    · split at h
      · simp at h
      · unfold stageAccount at h
        split at h
        · simp at h
        · split at h
          · simp at h
          · rename_i puuid hap
            unfold stageShard at h
            split at h
            · simp at h
            · split at h
              · simp at h
              · unfold runFrom at h
                split at h
                · simp at h
                · rename_i ml hml
                  split at h
                  · simp at h
                  · rename_i hemp
                    split at h
                    · simp at h
                    · rename_i t' n hagg
                      simp only [Outcome.report.injEq] at h
                      obtain ⟨h1, h2⟩ := h
                      subst h1
                      exact ⟨ml, hml, hemp, h2.symm, puuid, n, hagg⟩

end ValTracker

namespace ValTracker

/-! ### Concrete environments used by the claim theorems -/

/-- A run whose shard lookup returns the unknown code `"oce"`; one match,
fetched successfully, with a winning stat line of 1/1/1. -/
def c1Env : Env :=
  { api_key := some "KEY"
    riot_id := "Game#Tag".toList
    account_resp := .ok { puuid := some "P" }
    shard_resp := .ok { activeShard := some "oce" }
    matchlist_resp := .ok { history := some [{ matchId := some "m1" }] }
    detail := fun _ =>
      .ok { players := some [{ puuid := some "P"
                               stats := some ⟨some 1, some 1, some 1⟩
                               teamId := some "Red" }]
            teams := some [("Red", ⟨some true⟩)] } }

/-- A run whose typed Riot ID contains no `#` at all. -/
def c4Env : Env :=
  { api_key := some "KEY"
    riot_id := "GameTag".toList
    account_resp := .error "unused"
    shard_resp := .error "unused"
    matchlist_resp := .error "unused"
    detail := fun _ => .error "unused" }

/-- A run with a single match in which the caller goes 3/0/2 and no team data. -/
def c3Env : Env :=
  { api_key := some "KEY"
    riot_id := "Game#Tag".toList
    account_resp := .ok { puuid := some "P" }
    shard_resp := .ok { activeShard := some "na" }
    matchlist_resp := .ok { history := some [{ matchId := some "m1" }] }
    detail := fun _ =>
      .ok { players := some [{ puuid := some "P"
                               stats := some ⟨some 3, some 0, some 2⟩
                               teamId := none }]
            teams := none } }

/-! ### Claim theorems -/

/-- C1: the spec says a shard code outside the six-key table produces a
warning, uses the default americas host and does not terminate.  The code
does use the default host and does continue, but the warning guard
`val_domain != "americas.api.riotgames.com" and actual_region not in
region_map` is unsatisfiable, so the warning is never printed — for any
shard code whatsoever.  Evaluated at the unknown code `"oce"`: the run keeps
going (all later calls happen, ending in a report), the match host is the
default americas one, yet `warned` is `false`. -/
theorem c1_unknown_shard_silent_default :
    (∀ r : String, warnUnknown r = false) ∧
    region_map.lookup "oce" = none ∧
    run c1Env =
      ⟨.report ⟨1, 1, 1, 1⟩ 1, 1, 1, 1, 1,
        some "americas.api.riotgames.com", false⟩ := by
  refine ⟨?_, by decide, by decide⟩
  intro r
  unfold warnUnknown val_domain
  cases h : region_map.lookup r with
  | none => simp [h]
  | some v => simp [h]

/-- C4: with the credential present, any typed identifier whose `#` count is
not exactly one makes the run report a format error and stop with zero
network calls of any kind. -/
theorem c4_bad_separator_count (env : Env) (key : String)
    (hkey : env.api_key = some key) (hne : key ≠ "")
    (hcount : env.riot_id.count '#' ≠ 1) :
    run env = ⟨.badFormat, 0, 0, 0, 0, none, false⟩ := by
  have hparse : parseRiotId (pyStrip env.riot_id) = none :=
    parseRiotId_eq_none_of_count _ (by rw [count_hash_pyStrip]; exact hcount)
  simp [run, hkey, hne, hparse]

theorem c4_witness : run c4Env = ⟨.badFormat, 0, 0, 0, 0, none, false⟩ :=
  c4_bad_separator_count c4Env "KEY" rfl (by decide) (by decide)

/-- C3: whenever a run reaches the report, the printed KDA (`kda t`, computed
at lines 151–152 from the final totals alone) equals
(total kills + total assists) / max(1, total deaths), the divisor is never
zero, and in particular with 0 deaths, 3 kills and 2 assists the KDA is 5. -/
theorem c3_kda_formula (env : Env) (t : Totals) (g : Nat)
    (h : (run env).outcome = .report t g) :
    kda t = ((t.kills : ℚ) + (t.assists : ℚ)) / ((max 1 t.deaths : ℕ) : ℚ) ∧
    ((max 1 t.deaths : ℕ) : ℚ) ≠ 0 ∧
    (t.deaths = 0 → t.kills = 3 → t.assists = 2 → kda t = 5) := by
  refine ⟨rfl, ?_, ?_⟩
  · have hpos : (0 : ℕ) < max 1 t.deaths :=
      lt_of_lt_of_le Nat.zero_lt_one (le_max_left 1 t.deaths)
    exact_mod_cast hpos.ne'
  · intro hd hki ha
    unfold kda
    rw [hd, hki, ha, show (max 1 0 : ℕ) = 1 by omega]
    norm_num

theorem c3_witness :
    kda ⟨3, 0, 2, 0⟩ =
      (((Totals.mk 3 0 2 0).kills : ℚ) + ((Totals.mk 3 0 2 0).assists : ℚ)) /
        ((max 1 (Totals.mk 3 0 2 0).deaths : ℕ) : ℚ) ∧
    ((max 1 (Totals.mk 3 0 2 0).deaths : ℕ) : ℚ) ≠ 0 ∧
    ((Totals.mk 3 0 2 0).deaths = 0 → (Totals.mk 3 0 2 0).kills = 3 →
      (Totals.mk 3 0 2 0).assists = 2 → kda ⟨3, 0, 2, 0⟩ = 5) :=
  c3_kda_formula c3Env ⟨3, 0, 2, 0⟩ 1 (by decide)

end ValTracker

namespace ValTracker

/-- A run with five matches: the third detail fetch fails, the first two are
wins (1/1/0 each), the last two losses. -/
def c2Env : Env :=
  { api_key := some "KEY"
    riot_id := "Game#Tag".toList
    account_resp := .ok { puuid := some "P" }
    shard_resp := .ok { activeShard := some "na" }
    matchlist_resp := .ok
      { history := some [⟨some "m1"⟩, ⟨some "m2"⟩, ⟨some "m3"⟩, ⟨some "m4"⟩, ⟨some "m5"⟩] }
    detail := fun mid =>
      if mid = "m3" then .error "502 server error"
      else
        .ok { players := some [{ puuid := some "P"
                                 stats := some ⟨some 1, some 1, some 0⟩
                                 teamId := some "Red" }]
              teams := some [("Red", ⟨some (mid == "m1" || mid == "m2")⟩)] } }

/-- A run with three matches whose second detail fetch fails; the other two
give 2/1/1 (win) and 4/3/0 (loss). -/
def c5Env : Env :=
  { api_key := some "KEY"
    riot_id := "Game#Tag".toList
    account_resp := .ok { puuid := some "P" }
    shard_resp := .ok { activeShard := some "na" }
    matchlist_resp := .ok { history := some [⟨some "m1"⟩, ⟨some "m2"⟩, ⟨some "m3"⟩] }
    detail := fun mid =>
      if mid = "m2" then .error "timeout"
      else if mid = "m1" then
        .ok { players := some [{ puuid := some "P"
                                 stats := some ⟨some 2, some 1, some 1⟩
                                 teamId := some "Red" }]
              teams := some [("Red", ⟨some true⟩)] }
      else
        .ok { players := some [{ puuid := some "P"
                                 stats := some ⟨some 4, some 3, some 0⟩
                                 teamId := some "Blue" }]
              teams := some [("Blue", ⟨some false⟩)] } }

/-- A run with one match whose detail has no participant list at all. -/
def c10Env : Env :=
  { api_key := some "KEY"
    riot_id := "Game#Tag".toList
    account_resp := .ok { puuid := some "P" }
    shard_resp := .ok { activeShard := some "na" }
    matchlist_resp := .ok { history := some [⟨some "m1"⟩] }
    detail := fun _ => .ok { players := none, teams := none } }

/-- C2: whenever a run reaches the report, the win-rate denominator
`games_count` is the length of the capped match list — the number of match
ids attempted, at most 5 and never 0 — not the number successfully
aggregated, and the printed rate is wins/attempted×100; in particular
2 wins over 5 attempted prints 40. -/
theorem c2_win_rate_denominator (env : Env) (t : Totals) (g : Nat)
    (h : (run env).outcome = .report t g) :
    g = (cappedMatches env).length ∧ g ≤ 5 ∧ g ≠ 0 ∧
    winRate t.wins g = ((t.wins : ℚ) / (g : ℚ)) * 100 ∧
    winRate 2 5 = 40 := by
  obtain ⟨ml, hml, hemp, hg, -⟩ := run_report_inversion env t g h
  have hc : cappedMatches env = (ml.history.getD []).take 5 := by
    simp [cappedMatches, hml]
  have hle : g ≤ 5 := by rw [hg]; exact List.length_take_le 5 _
  have hne : g ≠ 0 := by
    rw [hg]
    intro h0
    exact hemp (List.length_eq_zero.mp h0)
  refine ⟨by rw [hg, hc], hle, hne, ?_, by norm_num [winRate]⟩
  unfold winRate
  rw [if_pos hne]

theorem c2_witness :
    (5 : Nat) = (cappedMatches c2Env).length ∧ (5 : Nat) ≤ 5 ∧ (5 : Nat) ≠ 0 ∧
    winRate (Totals.mk 4 4 0 2).wins 5 =
      (((Totals.mk 4 4 0 2).wins : ℚ) / ((5 : Nat) : ℚ)) * 100 ∧
    winRate 2 5 = 40 :=
  c2_win_rate_denominator c2Env ⟨4, 4, 0, 2⟩ 5 (by decide)

/-- C5: a failed match-detail fetch is non-fatal — the caught handler leaves
the totals untouched, the loop moves on to the remaining ids with the
attempted counter still advanced — and a run with such a failure still ends
in a report (three attempted, the second failing, totals from the other two). -/
theorem c5_failed_fetch_skipped :
    (∀ (puuid msg : String) (t : Totals), processMatch puuid (.error msg) t = .ok t) ∧
    (∀ (detail : String → Except String MatchData) (puuid mid msg : String)
        (rest : List MatchItem) (t : Totals) (n : Nat),
        detail mid = .error msg →
        runAgg detail puuid (⟨some mid⟩ :: rest) t n = runAgg detail puuid rest t (n + 1)) ∧
    run c5Env =
      ⟨.report ⟨6, 4, 1, 1⟩ 3, 1, 1, 1, 3, some "americas.api.riotgames.com", false⟩ := by
  refine ⟨fun puuid msg t => rfl, ?_, by decide⟩
  intro detail puuid mid msg rest t n hd
  simp only [runAgg, hd, processMatch]

theorem c5_witness :
    runAgg c5Env.detail "P" [⟨some "m2"⟩] {} 0 = runAgg c5Env.detail "P" [] {} 1 :=
  c5_failed_fetch_skipped.2.1 c5Env.detail "P" "m2" "timeout" [] {} 0 rfl

/-- C10: whenever a run reaches the report, `games_count` is between 1 and 5
(the empty-list case exits earlier with "No matches found."), so the
zero-denominator fallback of line 154 is not taken and the printed rate is
the true quotient. -/
theorem c10_games_count_bounds (env : Env) (t : Totals) (g : Nat)
    (h : (run env).outcome = .report t g) :
    1 ≤ g ∧ g ≤ 5 ∧ winRate t.wins g = ((t.wins : ℚ) / (g : ℚ)) * 100 := by
  obtain ⟨ml, hml, hemp, hg, -⟩ := run_report_inversion env t g h
  have h1 : 1 ≤ g := by
    rw [hg]
    exact Nat.one_le_iff_ne_zero.mpr (fun h0 => hemp (List.length_eq_zero.mp h0))
  have hle : g ≤ 5 := by rw [hg]; exact List.length_take_le 5 _
  refine ⟨h1, hle, ?_⟩
  unfold winRate
  rw [if_pos (by omega : g ≠ 0)]

theorem c10_witness :
    1 ≤ 1 ∧ 1 ≤ 5 ∧
    winRate (Totals.mk 0 0 0 0).wins 1 =
      (((Totals.mk 0 0 0 0).wins : ℚ) / ((1 : Nat) : ℚ)) * 100 :=
  c10_games_count_bounds c10Env ⟨0, 0, 0, 0⟩ 1 (by decide)

end ValTracker

namespace ValTracker

/-- A match detail whose only participant belongs to someone else. -/
def c6Md : MatchData :=
  { players := some [{ puuid := some "Q", stats := none, teamId := none }]
    teams := none }

/-- A run that stops at the account stage (later responses never used). -/
def c7Env : Env :=
  { api_key := some "KEY"
    riot_id := "a#b".toList
    account_resp := .ok { puuid := some "P" }
    shard_resp := .error "unused"
    matchlist_resp := .error "unused"
    detail := fun _ => .error "unused" }

/-- A run whose match-list response carries an empty history. -/
def c8Env : Env :=
  { api_key := some "KEY"
    riot_id := "a#b".toList
    account_resp := .ok { puuid := some "P" }
    shard_resp := .ok { activeShard := some "na" }
    matchlist_resp := .ok { history := some [] }
    detail := fun _ => .error "unused" }

/-- A run with two matches: the first is fine, the second has a participant
entry with no `"puuid"` key sitting in front of the caller's entry. -/
def c9Env : Env :=
  { api_key := some "KEY"
    riot_id := "Game#Tag".toList
    account_resp := .ok { puuid := some "P" }
    shard_resp := .ok { activeShard := some "na" }
    matchlist_resp := .ok { history := some [⟨some "m1"⟩, ⟨some "m2"⟩] }
    detail := fun mid =>
      if mid = "m1" then
        .ok { players := some [{ puuid := some "P"
                                 stats := some ⟨some 1, some 0, some 0⟩
                                 teamId := none }]
              teams := none }
      else
        .ok { players := some
                [{ puuid := none, stats := none, teamId := none },
                 { puuid := some "P"
                   stats := some ⟨some 9, some 9, some 9⟩
                   teamId := none }]
              teams := none } }

/-- C6: a fetched match whose participant list has no entry for the caller
(each entry carrying some other account id), or no participant list at all,
leaves the running totals exactly as they were; when a matching entry does
exist, the search returns the first one; and the attempted-match denominator
is the capped list length regardless of what each match contributed. -/
theorem c6_no_matching_participant :
    (∀ (puuid : String) (md : MatchData) (t : Totals) (plist : List Player),
        md.players = some plist →
        (∀ p ∈ plist, p.puuid.isSome ∧ p.puuid ≠ some puuid) →
        processMatch puuid (.ok md) t = .ok t) ∧
    (∀ (puuid : String) (md : MatchData) (t : Totals),
        md.players.getD [] = [] → processMatch puuid (.ok md) t = .ok t) ∧
    (∀ (puuid : String) (pre post : List Player) (p : Player),
        (∀ q ∈ pre, q.puuid.isSome ∧ q.puuid ≠ some puuid) →
        p.puuid = some puuid →
        findPlayer puuid (pre ++ p :: post) = .ok (some p)) ∧
    (∀ (env : Env) (t : Totals) (g : Nat),
        (run env).outcome = .report t g → g = (cappedMatches env).length) := by
  refine ⟨?_, ?_, fun puuid pre post p => findPlayer_first puuid pre p post, ?_⟩
  · intro puuid md t plist hpl hall
    simp only [processMatch, hpl, Option.getD_some]
    by_cases hp : plist = []
    · rw [if_pos hp]
    · rw [if_neg hp, findPlayer_eq_none puuid plist hall]
  · intro puuid md t hpl
    simp [processMatch, hpl]
  · intro env t g h
    obtain ⟨ml, hml, -, hg, -⟩ := run_report_inversion env t g h
    rw [hg]
    simp [cappedMatches, hml]

theorem c6_witness :
    processMatch "P" (.ok c6Md) {} = .ok {} :=
  c6_no_matching_participant.1 "P" c6Md {}
    [{ puuid := some "Q", stats := none, teamId := none }] rfl (by decide)

/-- C7: an account-lookup body without the `"puuid"` key takes the same
`except` handler as a transport failure of that call — the two runs are
observably identical: the error is reported, the run ends after the one
account call, with no shard / match-list / match-detail calls and no report. -/
theorem c7_missing_puuid_like_transport (env : Env) (e key : String)
    (pr : List Char × List Char)
    (hkey : env.api_key = some key) (hne : key ≠ "")
    (hparse : parseRiotId (pyStrip env.riot_id) = some pr) :
    run { env with account_resp := .ok { puuid := none } } =
      run { env with account_resp := .error e } ∧
    run { env with account_resp := .ok { puuid := none } } =
      ⟨.accountError, 1, 0, 0, 0, none, false⟩ := by
  have h1 : run { env with account_resp := .ok { puuid := none } } =
      ⟨.accountError, 1, 0, 0, 0, none, false⟩ := by
    rw [run_eq_stageAccount { env with account_resp := Except.ok { puuid := none } }
      key pr hkey hne hparse]
    rfl
  have h2 : run { env with account_resp := .error e } =
      ⟨.accountError, 1, 0, 0, 0, none, false⟩ := by
    rw [run_eq_stageAccount { env with account_resp := Except.error e }
      key pr hkey hne hparse]
    rfl
  exact ⟨h1.trans h2.symm, h1⟩

theorem c7_witness :
    run { c7Env with account_resp := .ok { puuid := none } } =
      run { c7Env with account_resp := .error "boom" } ∧
    run { c7Env with account_resp := .ok { puuid := none } } =
      ⟨.accountError, 1, 0, 0, 0, none, false⟩ :=
  c7_missing_puuid_like_transport c7Env "boom" "KEY" (['a'], ['b'])
    rfl (by decide) (by decide)

/-- C8: a run whose (capped) match list is empty prints "No matches found."
and stops: one call to each of the account / shard / match-list endpoints,
zero match-detail calls, and no report. -/
theorem c8_empty_match_list (env : Env) (key puuid region : String)
    (pr : List Char × List Char) (acct : AccountData) (sd : ShardData)
    (ml : MatchListData)
    (hkey : env.api_key = some key) (hne : key ≠ "")
    (hparse : parseRiotId (pyStrip env.riot_id) = some pr)
    (hacct : env.account_resp = .ok acct) (hpu : acct.puuid = some puuid)
    (hsd : env.shard_resp = .ok sd) (hreg : sd.activeShard = some region)
    (hml : env.matchlist_resp = .ok ml)
    (hemp : (ml.history.getD []).take 5 = []) :
    run env =
      ⟨.noMatches, 1, 1, 1, 0, some (val_domain region), warnUnknown region⟩ := by
  rw [run_eq_stageAccount env key pr hkey hne hparse]
  simp [stageAccount, hacct, hpu, stageShard, hsd, hreg, runFrom, hml, hemp]

theorem c8_witness :
    run c8Env = ⟨.noMatches, 1, 1, 1, 0, some (val_domain "na"), warnUnknown "na"⟩ :=
  c8_empty_match_list c8Env "KEY" "P" "na" (['a'], ['b'])
    { puuid := some "P" } { activeShard := some "na" } { history := some [] }
    rfl (by decide) (by decide) rfl rfl rfl rfl rfl rfl

/-- C9: a participant entry without a `"puuid"` key that sits before any
entry of the caller makes the lazy search raise `KeyError`, which nothing
catches: the per-match handler only guards the fetch, so the whole run
aborts with no report.  In `c9Env` the malformed entry is in the second of
two matches: the run ends `aborted` after both detail fetches. -/
theorem c9_malformed_participant_aborts :
    (∀ (puuid : String) (pre post : List Player) (q : Player),
        (∀ x ∈ pre, x.puuid.isSome ∧ x.puuid ≠ some puuid) →
        q.puuid = none →
        findPlayer puuid (pre ++ q :: post) = .error ()) ∧
    (∀ (puuid : String) (md : MatchData) (t : Totals) (pre post : List Player)
        (q : Player),
        md.players = some (pre ++ q :: post) →
        (∀ x ∈ pre, x.puuid.isSome ∧ x.puuid ≠ some puuid) →
        q.puuid = none →
        processMatch puuid (.ok md) t = .error ()) ∧
    run c9Env = ⟨.aborted, 1, 1, 1, 2, some "americas.api.riotgames.com", false⟩ := by
  refine ⟨fun puuid pre post q => findPlayer_eq_error puuid pre q post, ?_, by decide⟩
  intro puuid md t pre post q hpl hpre hq
  simp only [processMatch, hpl, Option.getD_some]
  rw [if_neg (by simp), findPlayer_eq_error puuid pre q post hpre hq]

theorem c9_witness :
    findPlayer "P"
      ([{ puuid := some "Q", stats := none, teamId := none }] ++
        ({ puuid := none, stats := none, teamId := none } : Player) :: []) =
      .error () :=
  c9_malformed_participant_aborts.1 "P"
    [{ puuid := some "Q", stats := none, teamId := none }] []
    { puuid := none, stats := none, teamId := none } (by decide) rfl

end ValTracker
